import Mathlib

/-!
# Listener registration and reply correlation of `listener.go`

A shallow embedding of `On`, `OnSync` and `handleMessage` from `listener.go`.

The Go code talks to collaborators that live outside the file: the go-nsq
consumer (`nsq.NewConsumer`, `AddConcurrentHandlers`, `ConnectToNSQLookupds`,
`ConnectToNSQD`), `json.Unmarshal`, and the emitter of this package
(`NewEmitter`, `Emit`).  Every such call is a field of an environment record:
a function over an abstract world state `σ` that returns what the Go call
returns together with the next world state.  The embedding threads the state
in program order and writes down, in a list of events, every call it makes and
what the call returned.  Claims of the form "no publish is performed" or
"exactly one connection call" are statements about that list.

Go pointers that may be nil are `Option`; a Go `(value, error)` result is a
pair whose error component is `Option GoError` (`none` is the nil error).
-/

set_option linter.dupNamespace false

namespace NsqEventBus

/-! ## Errors -/

/-- Go `error` values.  `sentinel` stands for the values the package creates
with `errors.New` in its `var` block (lines 10-17); `other` stands for every
error value that comes from somewhere else (go-nsq, encoding/json, the user
handler). -/
inductive GoError where
  | sentinel (text : String)
  | other (text : String)
  deriving DecidableEq, Repr

/-- Line 12: returned when topic is not passed as parameter. -/
def ErrTopicRequired : GoError := GoError.sentinel "topic is mandatory"

/-- Line 14: returned when handler is not passed as parameter. -/
def ErrHandlerRequired : GoError := GoError.sentinel "handler is mandatory"

/-- Line 16: returned when channel is not passed as parameter. -/
def ErrChannelRequired : GoError := GoError.sentinel "channel is mandatory"

/-- Go `len` on a string: the number of bytes of its UTF-8 encoding. -/
def goLen (s : String) : Nat := s.utf8ByteSize

/-! ## Data model -/

/-- The transport message `nsq.Message` of go-nsq, as far as its exported data
fields go.  Bytes are natural numbers below 256. -/
structure NsqMessage where
  ID : List Nat
  Body : List Nat
  Timestamp : Int
  Attempts : Nat
  NSQDAddress : String
  deriving DecidableEq, Repr

/-- Modelled from the spec: the declaration of the `Message` struct is not in
`listener.go`.  The spec (section 3) gives it a raw transport handle, a decoded
body and a `ReplyTo` string; `listener.go` itself uses the embedded field
`Message` (line 106, a `*nsq.Message`) and `ReplyTo` (lines 116, 125). -/
structure Message where
  Message : Option NsqMessage
  ReplyTo : String
  Payload : List Nat
  deriving DecidableEq, Repr

/-- What one call of a user handler leaves behind: the two Go return values
`(interface{}, error)` and the state of the `Message` the handler was given a
pointer to (line 111 passes `&m`, so the handler may assign to its fields).
`ρ` is the type of handler results (`interface{}` in Go). -/
structure HandlerReturn (ρ : Type) where
  res : ρ
  err : Option GoError
  m : Message

/-- Line 20: `type HandlerFunc func(m *Message) (interface{}, error)`.  The
handler may act on the world state `σ`. -/
abbrev HandlerFunc (σ ρ : Type) : Type := Message → σ → HandlerReturn ρ × σ

/-- Modelled from the spec: the declaration of `ListenerConfig` is not in
`listener.go`.  The fields are the six of spec section 6, which are also the
six that `listener.go` reads.  `HandlerFunc` is `none` for a nil func value;
`HandlerConcurrency` is a Go `int`. -/
structure ListenerConfig (σ ρ : Type) where
  Topic : String
  Channel : String
  Lookup : List String
  Nsqd : List String
  HandlerFunc : Option (HandlerFunc σ ρ)
  HandlerConcurrency : Int

/-- Modelled from the spec: the declaration of `EmitterConfig` is not in
`listener.go`; the spec (section 3) describes it as the publish-side
connection configuration (addresses and the like).  `listener.go` only ever
builds its zero value. -/
structure EmitterConfig where
  Address : String
  MaxInFlight : Int
  deriving DecidableEq, Repr

/-- The composite literal `EmitterConfig{}` of line 120. -/
def EmitterConfig.zero : EmitterConfig := { Address := "", MaxInFlight := 0 }

/-- A live `nsq.Consumer`, identified by a number. -/
structure Consumer where
  id : Nat
  deriving DecidableEq, Repr

/-- A live `Emitter` of this package, identified by a number. -/
structure Emitter where
  id : Nat
  deriving DecidableEq, Repr

/-- How a Go call ends: it returns a value, or it panics at run time (a call
of a nil func value, a field read through a nil pointer). -/
inductive Outcome (α : Type) where
  | returned (a : α)
  | panicked

/-- The result of running a piece of the program from a world state: the Go
return value, the calls made (oldest first) and the world state afterwards. -/
structure Run (σ ε α : Type) where
  ret : α
  events : List ε
  state : σ

/-! ## The handler adapter -/

/-- The calls `handleMessage` makes after decoding, each with what it
returned. -/
inductive MsgEvent (ρ : Type) where
  /-- Line 111: `lc.HandlerFunc(&m)`, with the message at call time. -/
  | HandlerFunc (m : Message) (ret : HandlerReturn ρ)
  /-- Line 120: `NewEmitter(cfg)`. -/
  | NewEmitter (cfg : EmitterConfig) (emitter : Option Emitter) (err : Option GoError)
  /-- Line 125: `emitter.Emit(topic, payload)`. -/
  | Emit (emitter : Option Emitter) (topic : String) (payload : ρ) (err : Option GoError)

/-- The callback type `nsq.HandlerFunc`: `func(message *nsq.Message) error`. -/
abbrev NsqHandlerFunc (σ ρ : Type) : Type :=
  Option NsqMessage → σ → Run σ (MsgEvent ρ) (Outcome (Option GoError))

/-- The collaborators of `handleMessage`.  `Unmarshal` is `json.Unmarshal`
applied to a byte slice and a pointer to a `Message`: it returns the error and
the message as the call leaves it.  `NewEmitter` and `Emit` are the emitter of
this package, whose source is not in `listener.go`. -/
structure AdapterEnv (σ ρ : Type) where
  Unmarshal : List Nat → Message → Option GoError × Message
  NewEmitter : EmitterConfig → σ → (Option Emitter × Option GoError) × σ
  Emit : Option Emitter → String → ρ → σ → Option GoError × σ

/-- Lines 104-127. -/
def handleMessage {σ ρ : Type} (E : AdapterEnv σ ρ) (lc : ListenerConfig σ ρ) :
    NsqHandlerFunc σ ρ :=
  fun message s =>
    -- line 106
    let m0 : Message := { Message := message, ReplyTo := "", Payload := [] }
    match message with
    | none => { ret := Outcome.panicked, events := [], state := s }
    | some raw =>
      -- line 107
      let u := E.Unmarshal raw.Body m0
      match u.1 with
      | some err => { ret := Outcome.returned (some err), events := [], state := s }
      | none =>
        let m := u.2
        -- line 111
        match lc.HandlerFunc with
        | none => { ret := Outcome.panicked, events := [], state := s }
        | some h =>
          let hr := (h m s).1
          let s1 := (h m s).2
          let evH := MsgEvent.HandlerFunc m hr
          match hr.err with
          | some err => { ret := Outcome.returned (some err), events := [evH], state := s1 }
          | none =>
            -- line 116
            if hr.m.ReplyTo = "" then
              { ret := Outcome.returned none, events := [evH], state := s1 }
            else
              -- line 120
              let n := E.NewEmitter EmitterConfig.zero s1
              let emitter := n.1.1
              let evN := MsgEvent.NewEmitter EmitterConfig.zero emitter n.1.2
              match n.1.2 with
              | some err =>
                { ret := Outcome.returned (some err), events := [evH, evN], state := n.2 }
              | none =>
                -- line 125
                let p := E.Emit emitter hr.m.ReplyTo hr.res n.2
                { ret := Outcome.returned p.1,
                  events := [evH, evN, MsgEvent.Emit emitter hr.m.ReplyTo hr.res p.1],
                  state := p.2 }

/-! ## The listener registrar -/

/-- The calls `On` and `OnSync` make on the transport, each with what it
returned.  `κ` is the type of `*nsq.Config` values. -/
inductive RegEvent (σ ρ κ : Type) where
  /-- Lines 47 and 87: `nsq.NewConsumer(topic, channel, config)`. -/
  | NewConsumer (topic channel : String) (config : κ)
      (consumer : Option Consumer) (err : Option GoError)
  /-- Lines 54 and 94: `consumer.AddConcurrentHandlers(handler, concurrency)`. -/
  | AddConcurrentHandlers (consumer : Option Consumer) (handler : NsqHandlerFunc σ ρ)
      (concurrency : Int)
  /-- Lines 56 and 96: `consumer.ConnectToNSQLookupds(addresses)`. -/
  | ConnectToNSQLookupds (consumer : Option Consumer) (addresses : List String)
      (err : Option GoError)
  /-- Lines 58 and 98: `consumer.ConnectToNSQD(addresses)`. -/
  | ConnectToNSQD (consumer : Option Consumer) (addresses : List String)
      (err : Option GoError)

/-- The collaborators of `On` and `OnSync`.  `newListenerConfig` is a function
of this package whose source is not in `listener.go`; it receives the config
by value.  The other four are go-nsq. -/
structure RegistrarEnv (σ ρ κ : Type) where
  newListenerConfig : ListenerConfig σ ρ → κ
  NewConsumer : String → String → κ → σ → (Option Consumer × Option GoError) × σ
  AddConcurrentHandlers : Option Consumer → NsqHandlerFunc σ ρ → Int → σ → σ
  ConnectToNSQLookupds : Option Consumer → List String → σ → Option GoError × σ
  ConnectToNSQD : Option Consumer → List String → σ → Option GoError × σ

/-- Lines 25-60. -/
def On {σ ρ κ : Type} (T : RegistrarEnv σ ρ κ) (E : AdapterEnv σ ρ)
    (lc : ListenerConfig σ ρ) (s : σ) : Run σ (RegEvent σ ρ κ) (Option GoError) :=
  if goLen lc.Topic = 0 then
    { ret := some ErrTopicRequired, events := [], state := s }
  else if goLen lc.Channel = 0 then
    { ret := some ErrChannelRequired, events := [], state := s }
  else if lc.HandlerFunc.isNone then
    { ret := some ErrHandlerRequired, events := [], state := s }
  else
    -- lines 38-40
    let lc := if lc.Lookup.length = 0 then { lc with Lookup := ["localhost:4161"] } else lc
    -- lines 42-44
    let lc := if lc.HandlerConcurrency = 0 then { lc with HandlerConcurrency := 1 } else lc
    -- lines 46-47
    let config := T.newListenerConfig lc
    let n := T.NewConsumer lc.Topic lc.Channel config s
    let consumer := n.1.1
    let evN := RegEvent.NewConsumer lc.Topic lc.Channel config consumer n.1.2
    match n.1.2 with
    | some err => { ret := some err, events := [evN], state := n.2 }
    | none =>
      -- line 52
      let handler := handleMessage E lc
      -- line 54
      let s2 := T.AddConcurrentHandlers consumer handler lc.HandlerConcurrency n.2
      let evA := RegEvent.AddConcurrentHandlers consumer handler lc.HandlerConcurrency
      if lc.Nsqd.length = 0 then
        let c := T.ConnectToNSQLookupds consumer lc.Lookup s2
        { ret := c.1,
          events := [evN, evA, RegEvent.ConnectToNSQLookupds consumer lc.Lookup c.1],
          state := c.2 }
      else
        let c := T.ConnectToNSQD consumer lc.Nsqd s2
        { ret := c.1,
          events := [evN, evA, RegEvent.ConnectToNSQD consumer lc.Nsqd c.1],
          state := c.2 }

/-- Lines 65-101.  The `return consumer, err` of line 100 follows an
`if`/`else` whose two branches both return, so no run reaches it. -/
def OnSync {σ ρ κ : Type} (T : RegistrarEnv σ ρ κ) (E : AdapterEnv σ ρ)
    (lc : ListenerConfig σ ρ) (s : σ) :
    Run σ (RegEvent σ ρ κ) (Option Consumer × Option GoError) :=
  if goLen lc.Topic = 0 then
    { ret := (none, some ErrTopicRequired), events := [], state := s }
  else if goLen lc.Channel = 0 then
    { ret := (none, some ErrChannelRequired), events := [], state := s }
  else if lc.HandlerFunc.isNone then
    { ret := (none, some ErrHandlerRequired), events := [], state := s }
  else
    -- lines 78-80
    let lc := if lc.Lookup.length = 0 then { lc with Lookup := ["localhost:4161"] } else lc
    -- lines 82-84
    let lc := if lc.HandlerConcurrency = 0 then { lc with HandlerConcurrency := 1 } else lc
    -- lines 86-87
    let config := T.newListenerConfig lc
    let n := T.NewConsumer lc.Topic lc.Channel config s
    let consumer := n.1.1
    let evN := RegEvent.NewConsumer lc.Topic lc.Channel config consumer n.1.2
    match n.1.2 with
    | some err => { ret := (consumer, some err), events := [evN], state := n.2 }
    | none =>
      -- line 92
      let handler := handleMessage E lc
      -- line 94
      let s2 := T.AddConcurrentHandlers consumer handler lc.HandlerConcurrency n.2
      let evA := RegEvent.AddConcurrentHandlers consumer handler lc.HandlerConcurrency
      if lc.Nsqd.length = 0 then
        let c := T.ConnectToNSQLookupds consumer lc.Lookup s2
        { ret := (consumer, c.1),
          events := [evN, evA, RegEvent.ConnectToNSQLookupds consumer lc.Lookup c.1],
          state := c.2 }
      else
        let c := T.ConnectToNSQD consumer lc.Nsqd s2
        { ret := (consumer, c.1),
          events := [evN, evA, RegEvent.ConnectToNSQD consumer lc.Nsqd c.1],
          state := c.2 }

/-- The value of `lc` after the defaulting statements of lines 38-44 (the same
statements are lines 78-84 of `OnSync`). -/
def defaulted {σ ρ : Type} (lc : ListenerConfig σ ρ) : ListenerConfig σ ρ :=
  let lc := if lc.Lookup.length = 0 then { lc with Lookup := ["localhost:4161"] } else lc
  if lc.HandlerConcurrency = 0 then { lc with HandlerConcurrency := 1 } else lc

/-- The outcome of lines 106-107 on a delivery: the `Message` literal of line
106 handed to `json.Unmarshal` with the body of the delivery.  The first
component is the decode error, the second the decoded message. -/
def decode {σ ρ : Type} (E : AdapterEnv σ ρ) (raw : NsqMessage) : Option GoError × Message :=
  E.Unmarshal raw.Body { Message := some raw, ReplyTo := "", Payload := [] }

/-! ## Reading the event lists -/

/-- The publishes of a run of the adapter: topic and payload of every `Emit`
call, oldest first. -/
def publishes {ρ : Type} : List (MsgEvent ρ) → List (String × ρ)
  | [] => []
  | MsgEvent.Emit _ topic payload _ :: es => (topic, payload) :: publishes es
  | MsgEvent.HandlerFunc _ _ :: es => publishes es
  | MsgEvent.NewEmitter _ _ _ :: es => publishes es

/-- The number of `NewEmitter` calls of a run of the adapter. -/
def emittersBuilt {ρ : Type} : List (MsgEvent ρ) → Nat
  | [] => 0
  | MsgEvent.NewEmitter _ _ _ :: es => emittersBuilt es + 1
  | MsgEvent.HandlerFunc _ _ :: es => emittersBuilt es
  | MsgEvent.Emit _ _ _ _ :: es => emittersBuilt es

/-- The number of calls of the user handler in a run of the adapter. -/
def handlerCalls {ρ : Type} : List (MsgEvent ρ) → Nat
  | [] => 0
  | MsgEvent.HandlerFunc _ _ :: es => handlerCalls es + 1
  | MsgEvent.NewEmitter _ _ _ :: es => handlerCalls es
  | MsgEvent.Emit _ _ _ _ :: es => handlerCalls es

/-- The two connection strategies: `direct` is `ConnectToNSQD`, `discovery` is
`ConnectToNSQLookupds`. -/
inductive Strategy where
  | direct
  | discovery
  deriving DecidableEq, Repr

/-- The connection calls of a registration: strategy, receiver and address
list of every `ConnectToNSQD` and `ConnectToNSQLookupds` call, oldest first. -/
def connectCalls {σ ρ κ : Type} :
    List (RegEvent σ ρ κ) → List (Strategy × Option Consumer × List String)
  | [] => []
  | RegEvent.ConnectToNSQD c addrs _ :: es => (Strategy.direct, c, addrs) :: connectCalls es
  | RegEvent.ConnectToNSQLookupds c addrs _ :: es =>
      (Strategy.discovery, c, addrs) :: connectCalls es
  | RegEvent.NewConsumer _ _ _ _ _ :: es => connectCalls es
  | RegEvent.AddConcurrentHandlers _ _ _ :: es => connectCalls es

/-- What the connection calls of a registration returned, oldest first. -/
def connectResults {σ ρ κ : Type} : List (RegEvent σ ρ κ) → List (Option GoError)
  | [] => []
  | RegEvent.ConnectToNSQD _ _ err :: es => err :: connectResults es
  | RegEvent.ConnectToNSQLookupds _ _ err :: es => err :: connectResults es
  | RegEvent.NewConsumer _ _ _ _ _ :: es => connectResults es
  | RegEvent.AddConcurrentHandlers _ _ _ :: es => connectResults es

/-- The handler attachments of a registration: receiver, handler and
concurrency of every `AddConcurrentHandlers` call, oldest first. -/
def attached {σ ρ κ : Type} :
    List (RegEvent σ ρ κ) → List (Option Consumer × NsqHandlerFunc σ ρ × Int)
  | [] => []
  | RegEvent.AddConcurrentHandlers c h n :: es => (c, h, n) :: attached es
  | RegEvent.NewConsumer _ _ _ _ _ :: es => attached es
  | RegEvent.ConnectToNSQLookupds _ _ _ :: es => attached es
  | RegEvent.ConnectToNSQD _ _ _ :: es => attached es

/-! ## Concrete collaborators

A small world used to run the definitions on explicit inputs.  The world state
is a counter of transport calls, handler results are strings, and an
`*nsq.Config` is the pair of the topic and the concurrency it was derived
from. -/

/-- A decoder that rejects the empty body, reads a body starting with byte 0
as an envelope without `ReplyTo`, and reads every other body as an envelope
whose `ReplyTo` is `replies.topic`. -/
def sampleUnmarshal (body : List Nat) (m : Message) : Option GoError × Message :=
  match body with
  | [] => (some (GoError.other "unexpected end of JSON input"), m)
  | 0 :: rest => (none, { m with Payload := rest })
  | _ :: rest => (none, { m with ReplyTo := "replies.topic", Payload := rest })

/-- An emitter whose construction and publishes all succeed. -/
def sampleAdapterEnv : AdapterEnv Nat String :=
  { Unmarshal := sampleUnmarshal,
    NewEmitter := fun _ s => ((some { id := s }, none), s + 1),
    Emit := fun _ _ _ s => (none, s + 1) }

/-- An emitter whose construction fails. -/
def brokenAdapterEnv : AdapterEnv Nat String :=
  { Unmarshal := sampleUnmarshal,
    NewEmitter := fun _ s => ((none, some (GoError.other "no nsqd address")), s + 1),
    Emit := fun _ _ _ s => (none, s + 1) }

/-- A transport on which every call succeeds. -/
def sampleRegistrarEnv : RegistrarEnv Nat String (String × Int) :=
  { newListenerConfig := fun lc => (lc.Topic, lc.HandlerConcurrency),
    NewConsumer := fun _ _ _ s => ((some { id := s }, none), s + 1),
    AddConcurrentHandlers := fun _ _ _ s => s + 1,
    ConnectToNSQLookupds := fun _ _ s => (none, s + 1),
    ConnectToNSQD := fun _ _ s => (none, s + 1) }

/-- A transport on which the consumer is built and both connection calls
fail. -/
def refusingRegistrarEnv : RegistrarEnv Nat String (String × Int) :=
  { newListenerConfig := fun lc => (lc.Topic, lc.HandlerConcurrency),
    NewConsumer := fun _ _ _ s => ((some { id := s }, none), s + 1),
    AddConcurrentHandlers := fun _ _ _ s => s + 1,
    ConnectToNSQLookupds := fun _ _ s => (some (GoError.other "lookupd refused"), s + 1),
    ConnectToNSQD := fun _ _ s => (some (GoError.other "nsqd refused"), s + 1) }

/-- A handler that answers `pong` and leaves the message alone. -/
def pongHandler : HandlerFunc Nat String :=
  fun m s => ({ res := "pong", err := none, m := m }, s)

/-- A handler that answers `pong` and clears the `ReplyTo` of its message. -/
def clearingHandler : HandlerFunc Nat String :=
  fun m s => ({ res := "pong", err := none, m := { m with ReplyTo := "" } }, s)

/-- A handler that answers `pong` and sets the `ReplyTo` of its message. -/
def redirectingHandler : HandlerFunc Nat String :=
  fun m s => ({ res := "pong", err := none, m := { m with ReplyTo := "late.topic" } }, s)

/-- A handler that fails. -/
def failingHandler : HandlerFunc Nat String :=
  fun m s => ({ res := "", err := some (GoError.other "boom"), m := m }, s)

/-- A config with every field set but the handler. -/
def sampleConfig (h : Option (HandlerFunc Nat String)) : ListenerConfig Nat String :=
  { Topic := "orders", Channel := "billing", Lookup := ["lookup-a:4161", "lookup-b:4161"],
    Nsqd := ["nsqd-a:4150"], HandlerFunc := h, HandlerConcurrency := 4 }

/-- A delivery with the given body. -/
def sampleDelivery (body : List Nat) : NsqMessage :=
  { ID := [1], Body := body, Timestamp := 0, Attempts := 1, NSQDAddress := "nsqd-a:4150" }

/-- A config without a topic; every other field is set. -/
def noTopicConfig : ListenerConfig Nat String :=
  { sampleConfig (some pongHandler) with Topic := "" }

/-- A config with a topic and without a channel; the handler is nil as well. -/
def noChannelConfig : ListenerConfig Nat String :=
  { sampleConfig none with Channel := "" }

/-- A valid config that names no broker and no discovery address and leaves
the concurrency unset. -/
def bareConfig : ListenerConfig Nat String :=
  { Topic := "orders", Channel := "billing", Lookup := [], Nsqd := [],
    HandlerFunc := some pongHandler, HandlerConcurrency := 0 }

/-- A valid config that names discovery addresses only. -/
def lookupConfig : ListenerConfig Nat String :=
  { sampleConfig (some pongHandler) with Nsqd := [] }

/-! ## Lemmas -/

theorem goLen_eq_zero_iff (s : String) : goLen s = 0 ↔ s = "" := by
  cases s with
  | mk l =>
    cases l with
    | nil => simp [goLen, String.utf8ByteSize, String.utf8ByteSize.go]
    | cons c cs =>
      have hc := Char.utf8Size_pos c
      simp [goLen, String.utf8ByteSize, String.utf8ByteSize.go, String.ext_iff]
      omega

/-! ## Validation (lines 26-36 and 66-76) -/

/-- C1: `On` and `OnSync` return the error of the first violated rule in the
order Topic, Channel, HandlerFunc: `ErrTopicRequired` when Topic is empty,
whatever the other fields are; `ErrChannelRequired` when Topic is non-empty
and Channel is empty, whatever HandlerFunc is; `ErrHandlerRequired` when Topic
and Channel are non-empty and HandlerFunc is nil.  In each case the handle
`OnSync` returns is nil. -/
theorem validation_first_violation {σ ρ κ : Type} (T : RegistrarEnv σ ρ κ)
    (E : AdapterEnv σ ρ) (lc : ListenerConfig σ ρ) (s : σ) :
    (lc.Topic = "" →
      (On T E lc s).ret = some ErrTopicRequired ∧
      (OnSync T E lc s).ret = (none, some ErrTopicRequired)) ∧
    (lc.Topic ≠ "" → lc.Channel = "" →
      (On T E lc s).ret = some ErrChannelRequired ∧
      (OnSync T E lc s).ret = (none, some ErrChannelRequired)) ∧
    (lc.Topic ≠ "" → lc.Channel ≠ "" → lc.HandlerFunc = none →
      (On T E lc s).ret = some ErrHandlerRequired ∧
      (OnSync T E lc s).ret = (none, some ErrHandlerRequired)) := by
  refine ⟨fun ht => ?_, fun ht hc => ?_, fun ht hc hh => ?_⟩
  · have h1 : goLen lc.Topic = 0 := (goLen_eq_zero_iff _).2 ht
    simp [On, OnSync, h1]
  · have h1 : goLen lc.Topic ≠ 0 := fun h => ht ((goLen_eq_zero_iff _).1 h)
    have h2 : goLen lc.Channel = 0 := (goLen_eq_zero_iff _).2 hc
    simp [On, OnSync, h1, h2]
  · have h1 : goLen lc.Topic ≠ 0 := fun h => ht ((goLen_eq_zero_iff _).1 h)
    have h2 : goLen lc.Channel ≠ 0 := fun h => hc ((goLen_eq_zero_iff _).1 h)
    simp [On, OnSync, h1, h2, hh]

theorem validation_first_violation_witness :
    (noTopicConfig.Topic = "" ∧
      (On sampleRegistrarEnv sampleAdapterEnv noTopicConfig 0).ret = some ErrTopicRequired ∧
      (OnSync sampleRegistrarEnv sampleAdapterEnv noTopicConfig 0).ret =
        (none, some ErrTopicRequired)) ∧
    (noChannelConfig.Topic ≠ "" ∧ noChannelConfig.Channel = "" ∧
      (On sampleRegistrarEnv sampleAdapterEnv noChannelConfig 0).ret =
        some ErrChannelRequired ∧
      (OnSync sampleRegistrarEnv sampleAdapterEnv noChannelConfig 0).ret =
        (none, some ErrChannelRequired)) ∧
    ((sampleConfig none).Topic ≠ "" ∧ (sampleConfig none).Channel ≠ "" ∧
      (sampleConfig none).HandlerFunc = none ∧
      (On sampleRegistrarEnv sampleAdapterEnv (sampleConfig none) 0).ret =
        some ErrHandlerRequired ∧
      (OnSync sampleRegistrarEnv sampleAdapterEnv (sampleConfig none) 0).ret =
        (none, some ErrHandlerRequired)) :=
  ⟨⟨rfl, (validation_first_violation sampleRegistrarEnv sampleAdapterEnv noTopicConfig 0).1 rfl⟩,
   ⟨by decide, rfl,
    (validation_first_violation sampleRegistrarEnv sampleAdapterEnv noChannelConfig 0).2.1
      (by decide) rfl⟩,
   ⟨by decide, by decide, rfl,
    (validation_first_violation sampleRegistrarEnv sampleAdapterEnv (sampleConfig none) 0).2.2
      (by decide) (by decide) rfl⟩⟩

/-- C9: a config that fails validation (empty Topic, empty Channel or nil
HandlerFunc) makes `On` and `OnSync` return without a single transport call:
no consumer is constructed, no handler is attached, no connection call is
made, and the world state is the one the call started from. -/
theorem validation_failure_no_transport_call {σ ρ κ : Type} (T : RegistrarEnv σ ρ κ)
    (E : AdapterEnv σ ρ) (lc : ListenerConfig σ ρ) (s : σ)
    (h : lc.Topic = "" ∨ lc.Channel = "" ∨ lc.HandlerFunc = none) :
    ((On T E lc s).events = [] ∧ (On T E lc s).state = s ∧ (On T E lc s).ret ≠ none) ∧
    ((OnSync T E lc s).events = [] ∧ (OnSync T E lc s).state = s ∧
      (OnSync T E lc s).ret.2 ≠ none) := by
  by_cases h1 : goLen lc.Topic = 0
  · simp [On, OnSync, h1]
  · by_cases h2 : goLen lc.Channel = 0
    · simp [On, OnSync, h1, h2]
    · have hh : lc.HandlerFunc = none := by
        rcases h with h | h | h
        · exact absurd ((goLen_eq_zero_iff _).2 h) h1
        · exact absurd ((goLen_eq_zero_iff _).2 h) h2
        · exact h
      simp [On, OnSync, h1, h2, hh]

theorem validation_failure_no_transport_call_witness :
    (noChannelConfig.Topic = "" ∨ noChannelConfig.Channel = "" ∨
      noChannelConfig.HandlerFunc = none) ∧
    ((On sampleRegistrarEnv sampleAdapterEnv noChannelConfig 7).events = [] ∧
      (On sampleRegistrarEnv sampleAdapterEnv noChannelConfig 7).state = 7 ∧
      (On sampleRegistrarEnv sampleAdapterEnv noChannelConfig 7).ret ≠ none) ∧
    ((OnSync sampleRegistrarEnv sampleAdapterEnv noChannelConfig 7).events = [] ∧
      (OnSync sampleRegistrarEnv sampleAdapterEnv noChannelConfig 7).state = 7 ∧
      (OnSync sampleRegistrarEnv sampleAdapterEnv noChannelConfig 7).ret.2 ≠ none) :=
  ⟨Or.inr (Or.inl rfl),
   validation_failure_no_transport_call sampleRegistrarEnv sampleAdapterEnv noChannelConfig 7
     (Or.inr (Or.inl rfl))⟩

/-! ## Registration of a valid config (lines 38-59 and 78-99) -/

/-- The run of `On` on a valid config whose consumer construction succeeds. -/
theorem On_valid {σ ρ κ : Type} (T : RegistrarEnv σ ρ κ) (E : AdapterEnv σ ρ)
    (lc : ListenerConfig σ ρ) (s : σ) (c : Option Consumer)
    (ht : lc.Topic ≠ "") (hc : lc.Channel ≠ "") (hh : lc.HandlerFunc ≠ none)
    (hn : (T.NewConsumer lc.Topic lc.Channel (T.newListenerConfig (defaulted lc)) s).1
      = (c, none)) :
    On T E lc s =
      (let evN := RegEvent.NewConsumer lc.Topic lc.Channel
          (T.newListenerConfig (defaulted lc)) c none
       let s1 := (T.NewConsumer lc.Topic lc.Channel (T.newListenerConfig (defaulted lc)) s).2
       let handler := handleMessage E (defaulted lc)
       let evA := RegEvent.AddConcurrentHandlers c handler (defaulted lc).HandlerConcurrency
       let s2 := T.AddConcurrentHandlers c handler (defaulted lc).HandlerConcurrency s1
       if lc.Nsqd = [] then
         { ret := (T.ConnectToNSQLookupds c (defaulted lc).Lookup s2).1,
           events := [evN, evA, RegEvent.ConnectToNSQLookupds c (defaulted lc).Lookup
             (T.ConnectToNSQLookupds c (defaulted lc).Lookup s2).1],
           state := (T.ConnectToNSQLookupds c (defaulted lc).Lookup s2).2 }
       else
         { ret := (T.ConnectToNSQD c lc.Nsqd s2).1,
           events := [evN, evA, RegEvent.ConnectToNSQD c lc.Nsqd (T.ConnectToNSQD c lc.Nsqd s2).1],
           state := (T.ConnectToNSQD c lc.Nsqd s2).2 }) := by
  have h1 : goLen lc.Topic ≠ 0 := fun h => ht ((goLen_eq_zero_iff _).1 h)
  have h2 : goLen lc.Channel ≠ 0 := fun h => hc ((goLen_eq_zero_iff _).1 h)
  have h3 : lc.HandlerFunc.isNone = false := by
    cases hf : lc.HandlerFunc with
    | none => exact absurd hf hh
    | some f => rfl
  have hn1 := congrArg Prod.fst hn
  have hn2 := congrArg Prod.snd hn
  by_cases hL : lc.Lookup = [] <;> by_cases hC : lc.HandlerConcurrency = 0 <;>
    by_cases hN : lc.Nsqd = [] <;>
    simp [defaulted, hL, hC, hN] at hn1 hn2 ⊢ <;>
    simp [On, h1, h2, h3, hL, hC, hN, hn1, hn2]

/-- The run of `OnSync` on a valid config whose consumer construction
succeeds. -/
theorem OnSync_valid {σ ρ κ : Type} (T : RegistrarEnv σ ρ κ) (E : AdapterEnv σ ρ)
    (lc : ListenerConfig σ ρ) (s : σ) (c : Option Consumer)
    (ht : lc.Topic ≠ "") (hc : lc.Channel ≠ "") (hh : lc.HandlerFunc ≠ none)
    (hn : (T.NewConsumer lc.Topic lc.Channel (T.newListenerConfig (defaulted lc)) s).1
      = (c, none)) :
    OnSync T E lc s =
      (let evN := RegEvent.NewConsumer lc.Topic lc.Channel
          (T.newListenerConfig (defaulted lc)) c none
       let s1 := (T.NewConsumer lc.Topic lc.Channel (T.newListenerConfig (defaulted lc)) s).2
       let handler := handleMessage E (defaulted lc)
       let evA := RegEvent.AddConcurrentHandlers c handler (defaulted lc).HandlerConcurrency
       let s2 := T.AddConcurrentHandlers c handler (defaulted lc).HandlerConcurrency s1
       if lc.Nsqd = [] then
         { ret := (c, (T.ConnectToNSQLookupds c (defaulted lc).Lookup s2).1),
           events := [evN, evA, RegEvent.ConnectToNSQLookupds c (defaulted lc).Lookup
             (T.ConnectToNSQLookupds c (defaulted lc).Lookup s2).1],
           state := (T.ConnectToNSQLookupds c (defaulted lc).Lookup s2).2 }
       else
         { ret := (c, (T.ConnectToNSQD c lc.Nsqd s2).1),
           events := [evN, evA, RegEvent.ConnectToNSQD c lc.Nsqd (T.ConnectToNSQD c lc.Nsqd s2).1],
           state := (T.ConnectToNSQD c lc.Nsqd s2).2 }) := by
  have h1 : goLen lc.Topic ≠ 0 := fun h => ht ((goLen_eq_zero_iff _).1 h)
  have h2 : goLen lc.Channel ≠ 0 := fun h => hc ((goLen_eq_zero_iff _).1 h)
  have h3 : lc.HandlerFunc.isNone = false := by
    cases hf : lc.HandlerFunc with
    | none => exact absurd hf hh
    | some f => rfl
  have hn1 := congrArg Prod.fst hn
  have hn2 := congrArg Prod.snd hn
  by_cases hL : lc.Lookup = [] <;> by_cases hC : lc.HandlerConcurrency = 0 <;>
    by_cases hN : lc.Nsqd = [] <;>
    simp [defaulted, hL, hC, hN] at hn1 hn2 ⊢ <;>
    simp [OnSync, h1, h2, h3, hL, hC, hN, hn1, hn2]

theorem defaulted_Lookup_of_nil {σ ρ : Type} (lc : ListenerConfig σ ρ) (h : lc.Lookup = []) :
    (defaulted lc).Lookup = ["localhost:4161"] := by
  by_cases hC : lc.HandlerConcurrency = 0 <;> simp [defaulted, h, hC]

theorem defaulted_Lookup_of_ne_nil {σ ρ : Type} (lc : ListenerConfig σ ρ) (h : lc.Lookup ≠ []) :
    (defaulted lc).Lookup = lc.Lookup := by
  by_cases hC : lc.HandlerConcurrency = 0 <;> simp [defaulted, h, hC]

theorem defaulted_HandlerConcurrency_of_zero {σ ρ : Type} (lc : ListenerConfig σ ρ)
    (h : lc.HandlerConcurrency = 0) : (defaulted lc).HandlerConcurrency = 1 := by
  by_cases hL : lc.Lookup = [] <;> simp [defaulted, h, hL]

theorem defaulted_HandlerConcurrency_of_ne_zero {σ ρ : Type} (lc : ListenerConfig σ ρ)
    (h : lc.HandlerConcurrency ≠ 0) :
    (defaulted lc).HandlerConcurrency = lc.HandlerConcurrency := by
  by_cases hL : lc.Lookup = [] <;> simp [defaulted, h, hL]

/-- C6: on a valid config whose consumer construction succeeds, `On` and
`OnSync` make exactly one connection call.  With a non-empty `Nsqd` it is
`ConnectToNSQD` on the constructed consumer with the `Nsqd` list of the config,
and `ConnectToNSQLookupds` is not called; with an empty `Nsqd` it is
`ConnectToNSQLookupds` on the constructed consumer with the (defaulted)
`Lookup` list, and `ConnectToNSQD` is not called. -/
theorem one_connection_strategy {σ ρ κ : Type} (T : RegistrarEnv σ ρ κ) (E : AdapterEnv σ ρ)
    (lc : ListenerConfig σ ρ) (s : σ) (c : Option Consumer)
    (ht : lc.Topic ≠ "") (hc : lc.Channel ≠ "") (hh : lc.HandlerFunc ≠ none)
    (hn : (T.NewConsumer lc.Topic lc.Channel (T.newListenerConfig (defaulted lc)) s).1
      = (c, none)) :
    (lc.Nsqd ≠ [] →
      connectCalls (On T E lc s).events = [(Strategy.direct, c, lc.Nsqd)] ∧
      connectCalls (OnSync T E lc s).events = [(Strategy.direct, c, lc.Nsqd)]) ∧
    (lc.Nsqd = [] →
      connectCalls (On T E lc s).events = [(Strategy.discovery, c, (defaulted lc).Lookup)] ∧
      connectCalls (OnSync T E lc s).events =
        [(Strategy.discovery, c, (defaulted lc).Lookup)]) := by
  rw [On_valid T E lc s c ht hc hh hn, OnSync_valid T E lc s c ht hc hh hn]
  constructor <;> intro hN <;> simp [hN, connectCalls]

theorem one_connection_strategy_witness :
    (((sampleConfig (some pongHandler)).Topic ≠ "" ∧
        (sampleConfig (some pongHandler)).Channel ≠ "" ∧
        (sampleConfig (some pongHandler)).HandlerFunc ≠ none ∧
        (sampleRegistrarEnv.NewConsumer "orders" "billing"
          (sampleRegistrarEnv.newListenerConfig (defaulted (sampleConfig (some pongHandler))))
          0).1 = (some { id := 0 }, none) ∧
        (sampleConfig (some pongHandler)).Nsqd ≠ []) ∧
      connectCalls (On sampleRegistrarEnv sampleAdapterEnv
        (sampleConfig (some pongHandler)) 0).events =
        [(Strategy.direct, some { id := 0 }, ["nsqd-a:4150"])] ∧
      connectCalls (OnSync sampleRegistrarEnv sampleAdapterEnv
        (sampleConfig (some pongHandler)) 0).events =
        [(Strategy.direct, some { id := 0 }, ["nsqd-a:4150"])]) ∧
    ((lookupConfig.Topic ≠ "" ∧ lookupConfig.Channel ≠ "" ∧ lookupConfig.HandlerFunc ≠ none ∧
        (sampleRegistrarEnv.NewConsumer "orders" "billing"
          (sampleRegistrarEnv.newListenerConfig (defaulted lookupConfig)) 0).1
          = (some { id := 0 }, none) ∧
        lookupConfig.Nsqd = []) ∧
      connectCalls (On sampleRegistrarEnv sampleAdapterEnv lookupConfig 0).events =
        [(Strategy.discovery, some { id := 0 }, (defaulted lookupConfig).Lookup)] ∧
      connectCalls (OnSync sampleRegistrarEnv sampleAdapterEnv lookupConfig 0).events =
        [(Strategy.discovery, some { id := 0 }, (defaulted lookupConfig).Lookup)]) :=
  ⟨⟨⟨by decide, by decide, by simp [sampleConfig], rfl, by decide⟩,
    (one_connection_strategy sampleRegistrarEnv sampleAdapterEnv
      (sampleConfig (some pongHandler)) 0 (some { id := 0 })
      (by decide) (by decide) (by simp [sampleConfig]) rfl).1 (by decide)⟩,
   ⟨⟨by decide, by decide, by simp [lookupConfig, sampleConfig], rfl, rfl⟩,
    (one_connection_strategy sampleRegistrarEnv sampleAdapterEnv lookupConfig 0
      (some { id := 0 }) (by decide) (by decide) (by simp [lookupConfig, sampleConfig]) rfl).2
      rfl⟩⟩

/-- C7: on a valid config with empty `Lookup` and empty `Nsqd` whose consumer
construction succeeds, the address list `On` and `OnSync` pass to
`ConnectToNSQLookupds` is the one-element list `["localhost:4161"]`; with a
non-empty `Lookup` (and empty `Nsqd`) it is the `Lookup` of the config,
unchanged and in order. -/
theorem discovery_addresses {σ ρ κ : Type} (T : RegistrarEnv σ ρ κ) (E : AdapterEnv σ ρ)
    (lc : ListenerConfig σ ρ) (s : σ) (c : Option Consumer)
    (ht : lc.Topic ≠ "") (hc : lc.Channel ≠ "") (hh : lc.HandlerFunc ≠ none)
    (hn : (T.NewConsumer lc.Topic lc.Channel (T.newListenerConfig (defaulted lc)) s).1
      = (c, none))
    (hN : lc.Nsqd = []) :
    (lc.Lookup = [] →
      connectCalls (On T E lc s).events = [(Strategy.discovery, c, ["localhost:4161"])] ∧
      connectCalls (OnSync T E lc s).events = [(Strategy.discovery, c, ["localhost:4161"])]) ∧
    (lc.Lookup ≠ [] →
      connectCalls (On T E lc s).events = [(Strategy.discovery, c, lc.Lookup)] ∧
      connectCalls (OnSync T E lc s).events = [(Strategy.discovery, c, lc.Lookup)]) := by
  rw [On_valid T E lc s c ht hc hh hn, OnSync_valid T E lc s c ht hc hh hn]
  constructor <;> intro hL
  · simp [hN, connectCalls, defaulted_Lookup_of_nil lc hL]
  · simp [hN, connectCalls, defaulted_Lookup_of_ne_nil lc hL]

theorem discovery_addresses_witness :
    ((bareConfig.Topic ≠ "" ∧ bareConfig.Channel ≠ "" ∧ bareConfig.HandlerFunc ≠ none ∧
        (sampleRegistrarEnv.NewConsumer "orders" "billing"
          (sampleRegistrarEnv.newListenerConfig (defaulted bareConfig)) 0).1
          = (some { id := 0 }, none) ∧
        bareConfig.Nsqd = [] ∧ bareConfig.Lookup = []) ∧
      connectCalls (On sampleRegistrarEnv sampleAdapterEnv bareConfig 0).events =
        [(Strategy.discovery, some { id := 0 }, ["localhost:4161"])] ∧
      connectCalls (OnSync sampleRegistrarEnv sampleAdapterEnv bareConfig 0).events =
        [(Strategy.discovery, some { id := 0 }, ["localhost:4161"])]) ∧
    ((lookupConfig.Topic ≠ "" ∧ lookupConfig.Channel ≠ "" ∧ lookupConfig.HandlerFunc ≠ none ∧
        (sampleRegistrarEnv.NewConsumer "orders" "billing"
          (sampleRegistrarEnv.newListenerConfig (defaulted lookupConfig)) 0).1
          = (some { id := 0 }, none) ∧
        lookupConfig.Nsqd = [] ∧ lookupConfig.Lookup ≠ []) ∧
      connectCalls (On sampleRegistrarEnv sampleAdapterEnv lookupConfig 0).events =
        [(Strategy.discovery, some { id := 0 }, ["lookup-a:4161", "lookup-b:4161"])] ∧
      connectCalls (OnSync sampleRegistrarEnv sampleAdapterEnv lookupConfig 0).events =
        [(Strategy.discovery, some { id := 0 }, ["lookup-a:4161", "lookup-b:4161"])]) :=
  ⟨⟨⟨by decide, by decide, by simp [bareConfig], rfl, rfl, rfl⟩,
    (discovery_addresses sampleRegistrarEnv sampleAdapterEnv bareConfig 0 (some { id := 0 })
      (by decide) (by decide) (by simp [bareConfig]) rfl rfl).1 rfl⟩,
   ⟨⟨by decide, by decide, by simp [lookupConfig, sampleConfig], rfl, rfl, by decide⟩,
    (discovery_addresses sampleRegistrarEnv sampleAdapterEnv lookupConfig 0 (some { id := 0 })
      (by decide) (by decide) (by simp [lookupConfig, sampleConfig]) rfl rfl).2 (by decide)⟩⟩

/-- C8: on a valid config whose consumer construction succeeds, `On` and
`OnSync` attach the adapter `handleMessage` builds from the defaulted config to
the constructed consumer exactly once; the concurrency of the attachment is 1
when `HandlerConcurrency` is 0 and is `HandlerConcurrency` itself, unchanged,
when it is not 0. -/
theorem attached_concurrency {σ ρ κ : Type} (T : RegistrarEnv σ ρ κ) (E : AdapterEnv σ ρ)
    (lc : ListenerConfig σ ρ) (s : σ) (c : Option Consumer)
    (ht : lc.Topic ≠ "") (hc : lc.Channel ≠ "") (hh : lc.HandlerFunc ≠ none)
    (hn : (T.NewConsumer lc.Topic lc.Channel (T.newListenerConfig (defaulted lc)) s).1
      = (c, none)) :
    (lc.HandlerConcurrency = 0 →
      attached (On T E lc s).events = [(c, handleMessage E (defaulted lc), 1)] ∧
      attached (OnSync T E lc s).events = [(c, handleMessage E (defaulted lc), 1)]) ∧
    (lc.HandlerConcurrency ≠ 0 →
      attached (On T E lc s).events =
        [(c, handleMessage E (defaulted lc), lc.HandlerConcurrency)] ∧
      attached (OnSync T E lc s).events =
        [(c, handleMessage E (defaulted lc), lc.HandlerConcurrency)]) := by
  rw [On_valid T E lc s c ht hc hh hn, OnSync_valid T E lc s c ht hc hh hn]
  constructor <;> intro hC
  · by_cases hN : lc.Nsqd = [] <;>
      simp [hN, attached, defaulted_HandlerConcurrency_of_zero lc hC]
  · by_cases hN : lc.Nsqd = [] <;>
      simp [hN, attached, defaulted_HandlerConcurrency_of_ne_zero lc hC]

theorem attached_concurrency_witness :
    ((bareConfig.Topic ≠ "" ∧ bareConfig.Channel ≠ "" ∧ bareConfig.HandlerFunc ≠ none ∧
        (sampleRegistrarEnv.NewConsumer "orders" "billing"
          (sampleRegistrarEnv.newListenerConfig (defaulted bareConfig)) 0).1
          = (some { id := 0 }, none) ∧
        bareConfig.HandlerConcurrency = 0) ∧
      attached (On sampleRegistrarEnv sampleAdapterEnv bareConfig 0).events =
        [(some { id := 0 }, handleMessage sampleAdapterEnv (defaulted bareConfig), 1)] ∧
      attached (OnSync sampleRegistrarEnv sampleAdapterEnv bareConfig 0).events =
        [(some { id := 0 }, handleMessage sampleAdapterEnv (defaulted bareConfig), 1)]) ∧
    (((sampleConfig (some pongHandler)).Topic ≠ "" ∧
        (sampleConfig (some pongHandler)).Channel ≠ "" ∧
        (sampleConfig (some pongHandler)).HandlerFunc ≠ none ∧
        (sampleRegistrarEnv.NewConsumer "orders" "billing"
          (sampleRegistrarEnv.newListenerConfig (defaulted (sampleConfig (some pongHandler))))
          0).1 = (some { id := 0 }, none) ∧
        (sampleConfig (some pongHandler)).HandlerConcurrency ≠ 0) ∧
      attached (On sampleRegistrarEnv sampleAdapterEnv
        (sampleConfig (some pongHandler)) 0).events =
        [(some { id := 0 },
          handleMessage sampleAdapterEnv (defaulted (sampleConfig (some pongHandler))), 4)] ∧
      attached (OnSync sampleRegistrarEnv sampleAdapterEnv
        (sampleConfig (some pongHandler)) 0).events =
        [(some { id := 0 },
          handleMessage sampleAdapterEnv (defaulted (sampleConfig (some pongHandler))), 4)]) :=
  ⟨⟨⟨by decide, by decide, by simp [bareConfig], rfl, rfl⟩,
    (attached_concurrency sampleRegistrarEnv sampleAdapterEnv bareConfig 0 (some { id := 0 })
      (by decide) (by decide) (by simp [bareConfig]) rfl).1 rfl⟩,
   ⟨⟨by decide, by decide, by simp [sampleConfig], rfl, by decide⟩,
    (attached_concurrency sampleRegistrarEnv sampleAdapterEnv
      (sampleConfig (some pongHandler)) 0 (some { id := 0 })
      (by decide) (by decide) (by simp [sampleConfig]) rfl).2 (by decide)⟩⟩

/-- C10: on a valid config, once the consumer is constructed `OnSync` returns
that consumer as its handle whatever the connection call returns, and the
error it returns with it is what the one connection call returned; `On`, on
the same config, transport and world state, makes the same calls and returns
that same connection result alone. -/
theorem constructed_consumer_returned {σ ρ κ : Type} (T : RegistrarEnv σ ρ κ)
    (E : AdapterEnv σ ρ) (lc : ListenerConfig σ ρ) (s : σ) (c : Option Consumer)
    (ht : lc.Topic ≠ "") (hc : lc.Channel ≠ "") (hh : lc.HandlerFunc ≠ none)
    (hn : (T.NewConsumer lc.Topic lc.Channel (T.newListenerConfig (defaulted lc)) s).1
      = (c, none)) :
    (OnSync T E lc s).ret.1 = c ∧
    connectResults (OnSync T E lc s).events = [(OnSync T E lc s).ret.2] ∧
    connectResults (On T E lc s).events = [(On T E lc s).ret] ∧
    (On T E lc s).ret = (OnSync T E lc s).ret.2 ∧
    (On T E lc s).events = (OnSync T E lc s).events ∧
    (On T E lc s).state = (OnSync T E lc s).state := by
  rw [On_valid T E lc s c ht hc hh hn, OnSync_valid T E lc s c ht hc hh hn]
  by_cases hN : lc.Nsqd = [] <;> simp [hN, connectResults]

theorem constructed_consumer_returned_witness :
    ((sampleConfig (some pongHandler)).Topic ≠ "" ∧
      (sampleConfig (some pongHandler)).Channel ≠ "" ∧
      (sampleConfig (some pongHandler)).HandlerFunc ≠ none ∧
      (refusingRegistrarEnv.NewConsumer "orders" "billing"
        (refusingRegistrarEnv.newListenerConfig (defaulted (sampleConfig (some pongHandler))))
        0).1 = (some { id := 0 }, none)) ∧
    (OnSync refusingRegistrarEnv sampleAdapterEnv (sampleConfig (some pongHandler)) 0).ret
      = (some { id := 0 }, some (GoError.other "nsqd refused")) ∧
    (On refusingRegistrarEnv sampleAdapterEnv (sampleConfig (some pongHandler)) 0).ret
      = some (GoError.other "nsqd refused") ∧
    ((OnSync refusingRegistrarEnv sampleAdapterEnv (sampleConfig (some pongHandler)) 0).ret.1
      = some { id := 0 } ∧
    connectResults
      (OnSync refusingRegistrarEnv sampleAdapterEnv (sampleConfig (some pongHandler)) 0).events
      = [(OnSync refusingRegistrarEnv sampleAdapterEnv
          (sampleConfig (some pongHandler)) 0).ret.2] ∧
    connectResults
      (On refusingRegistrarEnv sampleAdapterEnv (sampleConfig (some pongHandler)) 0).events
      = [(On refusingRegistrarEnv sampleAdapterEnv (sampleConfig (some pongHandler)) 0).ret] ∧
    (On refusingRegistrarEnv sampleAdapterEnv (sampleConfig (some pongHandler)) 0).ret
      = (OnSync refusingRegistrarEnv sampleAdapterEnv
          (sampleConfig (some pongHandler)) 0).ret.2 ∧
    (On refusingRegistrarEnv sampleAdapterEnv (sampleConfig (some pongHandler)) 0).events
      = (OnSync refusingRegistrarEnv sampleAdapterEnv
          (sampleConfig (some pongHandler)) 0).events ∧
    (On refusingRegistrarEnv sampleAdapterEnv (sampleConfig (some pongHandler)) 0).state
      = (OnSync refusingRegistrarEnv sampleAdapterEnv
          (sampleConfig (some pongHandler)) 0).state) :=
  ⟨⟨by decide, by decide, by simp [sampleConfig], rfl⟩, rfl, rfl,
   constructed_consumer_returned refusingRegistrarEnv sampleAdapterEnv
    (sampleConfig (some pongHandler)) 0 (some { id := 0 })
    (by decide) (by decide) (by simp [sampleConfig]) rfl⟩

/-! ## The handler adapter (lines 104-127) -/

/-- C4: when the body of a delivery fails decoding with error `e`, the adapter
returns exactly `e`, does not call the user handler, performs no publish, makes
no call at all and leaves the world state as it found it.  The config is
arbitrary. -/
theorem decode_failure_returned {σ ρ : Type} (E : AdapterEnv σ ρ) (lc : ListenerConfig σ ρ)
    (raw : NsqMessage) (s : σ) (e : GoError) (hd : (decode E raw).1 = some e) :
    (handleMessage E lc (some raw) s).ret = Outcome.returned (some e) ∧
    handlerCalls (handleMessage E lc (some raw) s).events = 0 ∧
    publishes (handleMessage E lc (some raw) s).events = [] ∧
    (handleMessage E lc (some raw) s).events = [] ∧
    (handleMessage E lc (some raw) s).state = s := by
  unfold decode at hd
  simp [handleMessage, hd, handlerCalls, publishes]

theorem decode_failure_returned_witness :
    (decode sampleAdapterEnv (sampleDelivery [])).1
      = some (GoError.other "unexpected end of JSON input") ∧
    ((handleMessage sampleAdapterEnv (sampleConfig (some pongHandler))
        (some (sampleDelivery [])) 3).ret
      = Outcome.returned (some (GoError.other "unexpected end of JSON input")) ∧
    handlerCalls (handleMessage sampleAdapterEnv (sampleConfig (some pongHandler))
        (some (sampleDelivery [])) 3).events = 0 ∧
    publishes (handleMessage sampleAdapterEnv (sampleConfig (some pongHandler))
        (some (sampleDelivery [])) 3).events = [] ∧
    (handleMessage sampleAdapterEnv (sampleConfig (some pongHandler))
        (some (sampleDelivery [])) 3).events = [] ∧
    (handleMessage sampleAdapterEnv (sampleConfig (some pongHandler))
        (some (sampleDelivery [])) 3).state = 3) :=
  ⟨rfl, decode_failure_returned sampleAdapterEnv (sampleConfig (some pongHandler))
    (sampleDelivery []) 3 (GoError.other "unexpected end of JSON input") rfl⟩

/-- C5: when a delivery decodes and the handler returns a non-nil error `e`,
the adapter returns exactly `e`, performs no publish and constructs no emitter,
whatever the `ReplyTo` of the message is; its only call is the one call of the
handler. -/
theorem handler_error_returned {σ ρ : Type} (E : AdapterEnv σ ρ) (lc : ListenerConfig σ ρ)
    (raw : NsqMessage) (s : σ) (h : HandlerFunc σ ρ) (e : GoError)
    (hh : lc.HandlerFunc = some h) (hd : (decode E raw).1 = none)
    (he : (h (decode E raw).2 s).1.err = some e) :
    (handleMessage E lc (some raw) s).ret = Outcome.returned (some e) ∧
    publishes (handleMessage E lc (some raw) s).events = [] ∧
    emittersBuilt (handleMessage E lc (some raw) s).events = 0 ∧
    handlerCalls (handleMessage E lc (some raw) s).events = 1 := by
  unfold decode at hd he
  simp [handleMessage, hd, hh, he, handlerCalls, publishes, emittersBuilt]

theorem handler_error_returned_witness :
    ((sampleConfig (some failingHandler)).HandlerFunc = some failingHandler ∧
      (decode sampleAdapterEnv (sampleDelivery [1, 2])).1 = none ∧
      (decode sampleAdapterEnv (sampleDelivery [1, 2])).2.ReplyTo = "replies.topic" ∧
      (failingHandler (decode sampleAdapterEnv (sampleDelivery [1, 2])).2 3).1.err
        = some (GoError.other "boom")) ∧
    ((handleMessage sampleAdapterEnv (sampleConfig (some failingHandler))
        (some (sampleDelivery [1, 2])) 3).ret
      = Outcome.returned (some (GoError.other "boom")) ∧
    publishes (handleMessage sampleAdapterEnv (sampleConfig (some failingHandler))
        (some (sampleDelivery [1, 2])) 3).events = [] ∧
    emittersBuilt (handleMessage sampleAdapterEnv (sampleConfig (some failingHandler))
        (some (sampleDelivery [1, 2])) 3).events = 0 ∧
    handlerCalls (handleMessage sampleAdapterEnv (sampleConfig (some failingHandler))
        (some (sampleDelivery [1, 2])) 3).events = 1) :=
  ⟨⟨rfl, rfl, rfl, rfl⟩,
   handler_error_returned sampleAdapterEnv (sampleConfig (some failingHandler))
    (sampleDelivery [1, 2]) 3 failingHandler (GoError.other "boom") rfl rfl rfl⟩

/-- C2, as stated, fails.  First run: the delivery decodes with `ReplyTo`
equal to `replies.topic`, the handler returns `("pong", nil)` after clearing
the `ReplyTo` of the message it was handed, and the adapter publishes nothing.
Second run: the handler leaves the message alone, `NewEmitter` returns an
error, and the adapter publishes nothing and returns that error. -/
theorem reply_published_once_counterexample :
    ((decode sampleAdapterEnv (sampleDelivery [1, 2])).1 = none ∧
      (decode sampleAdapterEnv (sampleDelivery [1, 2])).2.ReplyTo = "replies.topic" ∧
      (clearingHandler (decode sampleAdapterEnv (sampleDelivery [1, 2])).2 3).1.res = "pong" ∧
      (clearingHandler (decode sampleAdapterEnv (sampleDelivery [1, 2])).2 3).1.err = none ∧
      publishes (handleMessage sampleAdapterEnv (sampleConfig (some clearingHandler))
        (some (sampleDelivery [1, 2])) 3).events = [] ∧
      publishes (handleMessage sampleAdapterEnv (sampleConfig (some clearingHandler))
        (some (sampleDelivery [1, 2])) 3).events ≠ [("replies.topic", "pong")]) ∧
    ((decode brokenAdapterEnv (sampleDelivery [1, 2])).1 = none ∧
      (decode brokenAdapterEnv (sampleDelivery [1, 2])).2.ReplyTo = "replies.topic" ∧
      (pongHandler (decode brokenAdapterEnv (sampleDelivery [1, 2])).2 3).1.res = "pong" ∧
      (pongHandler (decode brokenAdapterEnv (sampleDelivery [1, 2])).2 3).1.err = none ∧
      publishes (handleMessage brokenAdapterEnv (sampleConfig (some pongHandler))
        (some (sampleDelivery [1, 2])) 3).events = [] ∧
      publishes (handleMessage brokenAdapterEnv (sampleConfig (some pongHandler))
        (some (sampleDelivery [1, 2])) 3).events ≠ [("replies.topic", "pong")] ∧
      (handleMessage brokenAdapterEnv (sampleConfig (some pongHandler))
        (some (sampleDelivery [1, 2])) 3).ret
        = Outcome.returned (some (GoError.other "no nsqd address"))) := by
  refine ⟨⟨rfl, rfl, rfl, rfl, rfl, ?_⟩, ⟨rfl, rfl, rfl, rfl, rfl, ?_, rfl⟩⟩
  · intro h; exact List.noConfusion h
  · intro h; exact List.noConfusion h

/-- C2, amended: when a delivery decodes, the handler returns `(res, nil)` and
the `ReplyTo` of the message as the handler leaves it is a non-empty topic `t`,
the adapter calls `NewEmitter` once and then: if `NewEmitter` returns a nil
error, the adapter performs exactly one publish, to `t`, carrying `res`
unmodified, on the emitter `NewEmitter` returned, and returns what that publish
returned; if `NewEmitter` returns an error `e`, the adapter performs no publish
and returns exactly `e`. -/
theorem reply_published_once {σ ρ : Type} (E : AdapterEnv σ ρ) (lc : ListenerConfig σ ρ)
    (raw : NsqMessage) (s : σ) (h : HandlerFunc σ ρ) (t : String)
    (hh : lc.HandlerFunc = some h) (hd : (decode E raw).1 = none)
    (he : (h (decode E raw).2 s).1.err = none)
    (ht : (h (decode E raw).2 s).1.m.ReplyTo = t) (hne : t ≠ "") :
    ((E.NewEmitter EmitterConfig.zero (h (decode E raw).2 s).2).1.2 = none →
      publishes (handleMessage E lc (some raw) s).events
        = [(t, (h (decode E raw).2 s).1.res)] ∧
      emittersBuilt (handleMessage E lc (some raw) s).events = 1 ∧
      handlerCalls (handleMessage E lc (some raw) s).events = 1 ∧
      (handleMessage E lc (some raw) s).ret
        = Outcome.returned
            (E.Emit (E.NewEmitter EmitterConfig.zero (h (decode E raw).2 s).2).1.1 t
              (h (decode E raw).2 s).1.res
              (E.NewEmitter EmitterConfig.zero (h (decode E raw).2 s).2).2).1 ∧
      (handleMessage E lc (some raw) s).state
        = (E.Emit (E.NewEmitter EmitterConfig.zero (h (decode E raw).2 s).2).1.1 t
              (h (decode E raw).2 s).1.res
              (E.NewEmitter EmitterConfig.zero (h (decode E raw).2 s).2).2).2) ∧
    (∀ e : GoError,
      (E.NewEmitter EmitterConfig.zero (h (decode E raw).2 s).2).1.2 = some e →
      publishes (handleMessage E lc (some raw) s).events = [] ∧
      emittersBuilt (handleMessage E lc (some raw) s).events = 1 ∧
      handlerCalls (handleMessage E lc (some raw) s).events = 1 ∧
      (handleMessage E lc (some raw) s).ret = Outcome.returned (some e) ∧
      (handleMessage E lc (some raw) s).state
        = (E.NewEmitter EmitterConfig.zero (h (decode E raw).2 s).2).2) := by
  subst ht
  unfold decode at hd he hne ⊢
  constructor
  · intro hn
    simp [handleMessage, hd, hh, he, hne, hn, handlerCalls, publishes, emittersBuilt]
  · intro e hn
    simp [handleMessage, hd, hh, he, hne, hn, handlerCalls, publishes, emittersBuilt]

theorem reply_published_once_witness :
    (((sampleConfig (some pongHandler)).HandlerFunc = some pongHandler ∧
        (decode sampleAdapterEnv (sampleDelivery [1, 2])).1 = none ∧
        (pongHandler (decode sampleAdapterEnv (sampleDelivery [1, 2])).2 3).1.err = none ∧
        (pongHandler (decode sampleAdapterEnv (sampleDelivery [1, 2])).2 3).1.m.ReplyTo
          = "replies.topic" ∧
        "replies.topic" ≠ "" ∧
        (sampleAdapterEnv.NewEmitter EmitterConfig.zero
          (pongHandler (decode sampleAdapterEnv (sampleDelivery [1, 2])).2 3).2).1.2 = none) ∧
      publishes (handleMessage sampleAdapterEnv (sampleConfig (some pongHandler))
          (some (sampleDelivery [1, 2])) 3).events
        = [("replies.topic", "pong")] ∧
      emittersBuilt (handleMessage sampleAdapterEnv (sampleConfig (some pongHandler))
          (some (sampleDelivery [1, 2])) 3).events = 1 ∧
      handlerCalls (handleMessage sampleAdapterEnv (sampleConfig (some pongHandler))
          (some (sampleDelivery [1, 2])) 3).events = 1 ∧
      (handleMessage sampleAdapterEnv (sampleConfig (some pongHandler))
          (some (sampleDelivery [1, 2])) 3).ret = Outcome.returned none ∧
      (handleMessage sampleAdapterEnv (sampleConfig (some pongHandler))
          (some (sampleDelivery [1, 2])) 3).state = 5) ∧
    (((sampleConfig (some pongHandler)).HandlerFunc = some pongHandler ∧
        (decode brokenAdapterEnv (sampleDelivery [1, 2])).1 = none ∧
        (pongHandler (decode brokenAdapterEnv (sampleDelivery [1, 2])).2 3).1.err = none ∧
        (pongHandler (decode brokenAdapterEnv (sampleDelivery [1, 2])).2 3).1.m.ReplyTo
          = "replies.topic" ∧
        "replies.topic" ≠ "" ∧
        (brokenAdapterEnv.NewEmitter EmitterConfig.zero
          (pongHandler (decode brokenAdapterEnv (sampleDelivery [1, 2])).2 3).2).1.2
          = some (GoError.other "no nsqd address")) ∧
      publishes (handleMessage brokenAdapterEnv (sampleConfig (some pongHandler))
          (some (sampleDelivery [1, 2])) 3).events = [] ∧
      emittersBuilt (handleMessage brokenAdapterEnv (sampleConfig (some pongHandler))
          (some (sampleDelivery [1, 2])) 3).events = 1 ∧
      handlerCalls (handleMessage brokenAdapterEnv (sampleConfig (some pongHandler))
          (some (sampleDelivery [1, 2])) 3).events = 1 ∧
      (handleMessage brokenAdapterEnv (sampleConfig (some pongHandler))
          (some (sampleDelivery [1, 2])) 3).ret
        = Outcome.returned (some (GoError.other "no nsqd address")) ∧
      (handleMessage brokenAdapterEnv (sampleConfig (some pongHandler))
          (some (sampleDelivery [1, 2])) 3).state = 4) :=
  ⟨⟨⟨rfl, rfl, rfl, rfl, by decide, rfl⟩,
    (reply_published_once sampleAdapterEnv (sampleConfig (some pongHandler))
      (sampleDelivery [1, 2]) 3 pongHandler "replies.topic" rfl rfl rfl rfl (by decide)).1 rfl⟩,
   ⟨⟨rfl, rfl, rfl, rfl, by decide, rfl⟩,
    (reply_published_once brokenAdapterEnv (sampleConfig (some pongHandler))
      (sampleDelivery [1, 2]) 3 pongHandler "replies.topic" rfl rfl rfl rfl (by decide)).2
      (GoError.other "no nsqd address") rfl⟩⟩

/-- C3, as stated, fails: the delivery decodes with an empty `ReplyTo`, the
handler returns `("pong", nil)` after setting the `ReplyTo` of the message it
was handed to `late.topic`, and the adapter constructs an emitter and publishes
`pong` to `late.topic`. -/
theorem no_reply_counterexample :
    (decode sampleAdapterEnv (sampleDelivery [0, 2])).1 = none ∧
    (decode sampleAdapterEnv (sampleDelivery [0, 2])).2.ReplyTo = "" ∧
    (redirectingHandler (decode sampleAdapterEnv (sampleDelivery [0, 2])).2 3).1.res
      = "pong" ∧
    (redirectingHandler (decode sampleAdapterEnv (sampleDelivery [0, 2])).2 3).1.err = none ∧
    publishes (handleMessage sampleAdapterEnv (sampleConfig (some redirectingHandler))
      (some (sampleDelivery [0, 2])) 3).events = [("late.topic", "pong")] ∧
    emittersBuilt (handleMessage sampleAdapterEnv (sampleConfig (some redirectingHandler))
      (some (sampleDelivery [0, 2])) 3).events = 1 :=
  ⟨rfl, rfl, rfl, rfl, rfl, rfl⟩

/-- C3, amended: when a delivery decodes, the handler returns `(res, nil)` and
the `ReplyTo` of the message as the handler leaves it is the empty string, the
adapter performs no publish, constructs no emitter and returns nil. -/
theorem no_reply_when_reply_to_empty {σ ρ : Type} (E : AdapterEnv σ ρ)
    (lc : ListenerConfig σ ρ) (raw : NsqMessage) (s : σ) (h : HandlerFunc σ ρ)
    (hh : lc.HandlerFunc = some h) (hd : (decode E raw).1 = none)
    (he : (h (decode E raw).2 s).1.err = none)
    (ht : (h (decode E raw).2 s).1.m.ReplyTo = "") :
    publishes (handleMessage E lc (some raw) s).events = [] ∧
    emittersBuilt (handleMessage E lc (some raw) s).events = 0 ∧
    (handleMessage E lc (some raw) s).ret = Outcome.returned none := by
  unfold decode at hd he ht
  simp [handleMessage, hd, hh, he, ht, publishes, emittersBuilt]

theorem no_reply_when_reply_to_empty_witness :
    ((sampleConfig (some pongHandler)).HandlerFunc = some pongHandler ∧
      (decode sampleAdapterEnv (sampleDelivery [0, 2])).1 = none ∧
      (pongHandler (decode sampleAdapterEnv (sampleDelivery [0, 2])).2 3).1.err = none ∧
      (pongHandler (decode sampleAdapterEnv (sampleDelivery [0, 2])).2 3).1.m.ReplyTo = "") ∧
    (publishes (handleMessage sampleAdapterEnv (sampleConfig (some pongHandler))
        (some (sampleDelivery [0, 2])) 3).events = [] ∧
    emittersBuilt (handleMessage sampleAdapterEnv (sampleConfig (some pongHandler))
        (some (sampleDelivery [0, 2])) 3).events = 0 ∧
    (handleMessage sampleAdapterEnv (sampleConfig (some pongHandler))
        (some (sampleDelivery [0, 2])) 3).ret = Outcome.returned none) :=
  ⟨⟨rfl, rfl, rfl, rfl⟩,
   no_reply_when_reply_to_empty sampleAdapterEnv (sampleConfig (some pongHandler))
    (sampleDelivery [0, 2]) 3 pongHandler rfl rfl rfl rfl⟩

end NsqEventBus
